import Mathlib

/-! Verification development for the media-api resolution pipeline
(keyword registry / BM25 matching, permission config, failure tracker,
TTL result cache, resolver orchestration).

The Lean definitions below are a shallow embedding of the Python sources:
  keyword_registry.py, config_manager.py, failure_tracker.py,
  cache_manager.py, main.py.
Conventions of the embedding:
  * Python `float` time stamps and BM25 scores are modelled exactly by
    unnormalized fractions (`PyFloat` below): every number produced by
    the code is obtained from integers by +, -, *, /, so an exact
    fraction representation is faithful up to IEEE rounding, which none
    of the compared thresholds depend on.
  * Python dicts used as records are modelled by structures; dicts used
    as string-keyed tables are modelled by association lists or by total
    functions, matching the observable `get(key, default)` access pattern.
  * Python `set` iteration order is unspecified; the registry's keyword
    set is modelled as an insertion-ordered duplicate-free list (all the
    properties proved below are insensitive to the order).
  * `str.lower()` is modelled on the ASCII range (the tokenizer's
    character classes are CJK / [a-zA-Z] / ASCII digits, so only ASCII
    case folding is observable there); `str.strip()` trims the full
    CPython Unicode whitespace set (`pyIsSpace` below).
  * Thread locks are ignored: every operation is modelled as an atomic
    state transformer.
-/

/-! ## Exact fraction arithmetic (model of Python floats)

An unnormalized fraction `num / den` with `den` kept positive by
construction.  No gcd normalization is performed, so all operations and
comparisons reduce inside the Lean kernel. -/

structure PyFloat where
  num : Int
  den : Int
deriving DecidableEq

/-- Embed an integer. -/
def PyFloat.ofInt (n : Int) : PyFloat := ⟨n, 1⟩

/-- Embed a natural number. -/
def PyFloat.ofNat (n : Nat) : PyFloat := ⟨(n : Int), 1⟩

def PyFloat.add (a b : PyFloat) : PyFloat := ⟨a.num * b.den + b.num * a.den, a.den * b.den⟩

def PyFloat.sub (a b : PyFloat) : PyFloat := ⟨a.num * b.den - b.num * a.den, a.den * b.den⟩

def PyFloat.mul (a b : PyFloat) : PyFloat := ⟨a.num * b.num, a.den * b.den⟩

/-- Division `a / b` (for `b ≠ 0`; the embedded code never divides by 0
on its reachable paths). -/
def PyFloat.div (a b : PyFloat) : PyFloat :=
  if 0 ≤ b.num then ⟨a.num * b.den, a.den * b.num⟩ else ⟨-(a.num * b.den), a.den * -b.num⟩

/-- Comparison `a ≤ b` (dens are positive by construction). -/
def PyFloat.le (a b : PyFloat) : Bool := decide (a.num * b.den ≤ b.num * a.den)

/-- Comparison `a < b`. -/
def PyFloat.lt (a b : PyFloat) : Bool := decide (a.num * b.den < b.num * a.den)

/-! ## Python string primitives -/

/-- ASCII lower-casing of one character (model of what `str.lower()` does
on the characters the tokenizer distinguishes). -/
def charLower (c : Char) : Char :=
  if 0x41 ≤ c.toNat ∧ c.toNat ≤ 0x5A then Char.ofNat (c.toNat + 0x20) else c

/-- Model of Python `s.lower()`. -/
def pyLower (s : String) : String := ⟨s.data.map charLower⟩

/-- Python's whitespace class (CPython `Py_UNICODE_ISSPACE`, the set
`str.strip()` removes): the ASCII whitespace controls and space, the
information separators 0x1C-0x1F, NEL, NBSP, and the Unicode space
separators including the ideographic space U+3000 and the line/paragraph
separators U+2028/U+2029. -/
def pyIsSpace (c : Char) : Bool :=
  let n := c.toNat
  decide ((0x09 ≤ n ∧ n ≤ 0x0D) ∨ (0x1C ≤ n ∧ n ≤ 0x1F) ∨ n = 0x20 ∨ n = 0x85 ∨
    n = 0xA0 ∨ n = 0x1680 ∨ (0x2000 ≤ n ∧ n ≤ 0x200A) ∨ n = 0x2028 ∨ n = 0x2029 ∨
    n = 0x202F ∨ n = 0x205F ∨ n = 0x3000)

/-- Model of Python `s.strip()`: drop Unicode whitespace from both ends. -/
def pyTrim (s : String) : String :=
  ⟨((s.data.dropWhile pyIsSpace).reverse.dropWhile pyIsSpace).reverse⟩

/-- Model of Python `needle in hay` (substring containment), on char lists. -/
def listSub : List Char → List Char → Bool
  | p, [] => p.isEmpty
  | p, _h :: t => (p.isPrefixOf (_h :: t)) || listSub p t

/-- Model of Python `needle in hay` on strings. -/
def strIn (needle hay : String) : Bool := listSub needle.data hay.data

/-- Model of Python `sep.join l`. -/
def joinSep (sep : String) : List String → String
  | [] => ""
  | [x] => x
  | x :: y :: xs => x ++ sep ++ joinSep sep (y :: xs)

/-! ## Tokenizer (`KeywordRegistry._tokenize`)

The Python code lowers and strips the text, extracts the maximal runs
matching `[一-鿿]+|[a-zA-Z]+|\d+`, and then per run and in order:
CJK run: whole run, plus each character when the run length is ≤ 4;
alphabetic run: the (lowered) run, plus, when its length is ≤ 5, every
proper prefix of length ≥ 2 that is not already among the tokens;
digit run: the whole run.  The `_keyword_tokens_cache` memoization is
semantically transparent and is not modelled. -/

def isCJK (c : Char) : Bool := decide (0x4e00 ≤ c.toNat ∧ c.toNat ≤ 0x9fff)

/-- Character class of the regex alternation: 0 = CJK, 1 = [a-zA-Z], 2 = digit. -/
def charRunClass (c : Char) : Option Nat :=
  if isCJK c then some 0
  else if c.isAlpha then some 1
  else if c.isDigit then some 2
  else none

/-- Group a character list into the maximal runs found by
`re.findall(r'[一-鿿]+|[a-zA-Z]+|\d+', text)`. -/
def groupRuns : Option (Nat × List Char) → List Char → List (Nat × List Char)
  | none, [] => []
  | some r, [] => [r]
  | none, c :: cs =>
      match charRunClass c with
      | none => groupRuns none cs
      | some k => groupRuns (some (k, [c])) cs
  | some (k, r), c :: cs =>
      match charRunClass c with
      | none => (k, r) :: groupRuns none cs
      | some k2 =>
          if k2 = k then groupRuns (some (k, r ++ [c])) cs
          else (k, r) :: groupRuns (some (k2, [c])) cs

/-- The prefix-appending loop for short alphabetic runs:
`for i in range(2, len(w)): if w[:i] not in tokens: tokens.append(w[:i])`. -/
def pfxLoop (w : List Char) (toks : List String) : List String :=
  ((List.range w.length).drop 2).foldl
    (fun ts i =>
      if (⟨w.take i⟩ : String) ∈ ts then ts else ts ++ [(⟨w.take i⟩ : String)])
    toks

/-- Token contribution of one regex run. -/
def addRunTokens (toks : List String) (run : Nat × List Char) : List String :=
  match run.1 with
  | 0 =>
      let toks1 := toks ++ [(⟨run.2⟩ : String)]
      if run.2.length ≤ 4 then toks1 ++ run.2.map (fun c => (⟨[c]⟩ : String)) else toks1
  | 1 =>
      let w := run.2.map charLower
      let toks1 := toks ++ [(⟨w⟩ : String)]
      if run.2.length ≤ 5 then pfxLoop w toks1 else toks1
  | _ => toks ++ [(⟨run.2⟩ : String)]

/-- Model of `KeywordRegistry._tokenize`. -/
def tokenize (s : String) : List String :=
  let t := pyTrim (pyLower s)
  if t.data = [] then [] else (groupRuns none t.data).foldl addRunTokens []

/-! ## BM25 scoring (`KeywordRegistry._calculate_bm25_score`) -/

/-- Model of `KeywordRegistry._calculate_bm25_score`.  Mirrors the source:
tokenize both sides (empty tokens on either side short-circuit to 0.0),
sum a simplified BM25 term over the query tokens that occur among the
keyword tokens, normalize by the query token count, add a containment
bonus, and finally override the score with 10.0 on a case-insensitive
exact match. -/
def calculate_bm25_score (k1 b : PyFloat) (query keyword : String) : PyFloat :=
  let queryTokens := tokenize query
  let keywordTokens := tokenize keyword
  if queryTokens = [] ∨ keywordTokens = [] then PyFloat.ofInt 0 else
  let keywordLength : PyFloat := PyFloat.ofNat keywordTokens.length
  let base := queryTokens.foldl (fun acc token =>
    if token ∈ keywordTokens then
      let tf : PyFloat := PyFloat.ofNat (keywordTokens.count token)
      let idf : PyFloat :=
        if token = query ∨ token = keyword then PyFloat.ofInt 2
        else if 2 ≤ token.length then ⟨3, 2⟩
        else ⟨1, 2⟩
      let normalization :=
        ((PyFloat.ofInt 1).sub b).add (b.mul (keywordLength.div (PyFloat.ofInt 5)))
      let bm25tf := (tf.mul (k1.add (PyFloat.ofInt 1))).div (tf.add (k1.mul normalization))
      acc.add (idf.mul bm25tf)
    else acc) (PyFloat.ofInt 0)
  let score1 := base.div (PyFloat.ofNat queryTokens.length)
  let queryLower := pyLower query
  let keywordLower := pyLower keyword
  let score2 :=
    if strIn queryLower keywordLower then
      let containRatio := (PyFloat.ofNat queryLower.length).div (PyFloat.ofNat keywordLower.length)
      if PyFloat.le ⟨1, 2⟩ containRatio then score1.add (PyFloat.ofInt 2)
      else score1.add (containRatio.mul (PyFloat.ofInt 1))
    else score1
  if queryLower = keywordLower then PyFloat.ofInt 10 else score2

/-! ## Keyword registry (`keyword_registry.py`) -/

/-- State of `KeywordRegistry`: platform → list of (keyword, api_id,
media_type) triples (a Python dict, modelled as an insertion-ordered
association list), the set of all registered keywords, and the scoring
configuration. -/
structure KeywordRegistry where
  platformApis : List (String × List (String × String × String))
  allKeywords : List String
  similarityThreshold : PyFloat
  k1 : PyFloat
  b : PyFloat
deriving DecidableEq

/-- `KeywordRegistry.__init__` with its default parameters
(threshold 0.3, k1 = 1.5, b = 0.75). -/
def KeywordRegistry.init : KeywordRegistry :=
  { platformApis := [], allKeywords := [], similarityThreshold := ⟨3, 10⟩
    k1 := ⟨3, 2⟩, b := ⟨3, 4⟩ }

/-- First-binding lookup in an association list (Python dict access). -/
def assocFind {α : Type} : List (String × α) → String → Option α
  | [], _ => none
  | (k, v) :: t, q => if k = q then some v else assocFind t q

/-- Update the first binding of a key in an association list. -/
def assocUpdate {α : Type} : List (String × α) → String → (α → α) → List (String × α)
  | [], _, _ => []
  | (k, v) :: t, q, f => if k = q then (k, f v) :: t else (k, v) :: assocUpdate t q f

/-- Model of `KeywordRegistry.register`: ensure the platform key exists,
strip the keyword, and only for a non-empty stripped keyword append the
triple and add the keyword to the global keyword set. -/
def KeywordRegistry.register (reg : KeywordRegistry)
    (platform keyword api_id media_type : String) : KeywordRegistry :=
  let apis :=
    match assocFind reg.platformApis platform with
    | some _ => reg.platformApis
    | none => reg.platformApis ++ [(platform, [])]
  let kw := pyTrim keyword
  if kw = "" then { reg with platformApis := apis }
  else
    { reg with
      platformApis := assocUpdate apis platform (fun l => l ++ [(kw, api_id, media_type)])
      allKeywords :=
        if kw ∈ reg.allKeywords then reg.allKeywords else reg.allKeywords ++ [kw] }

/-- Concatenating map (the nested `for` loops of `find_matching_apis`). -/
def concatMap {α β : Type} : List α → (α → List β) → List β
  | [], _ => []
  | a :: as, f => f a ++ concatMap as f

/-- The local `platforms_to_search = available_platforms or list(self._platform_apis.keys())`
of `find_matching_apis` (Python truthiness: `None` and `[]` both fall back
to all registered platforms). -/
def KeywordRegistry.platformsToSearch (reg : KeywordRegistry)
    (available_platforms : Option (List String)) : List String :=
  match available_platforms with
  | none => reg.platformApis.map Prod.fst
  | some [] => reg.platformApis.map Prod.fst
  | some l => l

/-- Model of `KeywordRegistry.find_matching_apis`: strip+lower the query
(empty query → no matches), search the given platforms, and keep every
(platform, api_id, media_type) triple whose media type passes the filter
and whose BM25 score reaches the threshold. -/
def KeywordRegistry.find_matching_apis (reg : KeywordRegistry) (query : String)
    (available_platforms : Option (List String)) (media_type : String) :
    List (String × String × String) :=
  let q := pyLower (pyTrim query)
  if q = "" then [] else
  concatMap (reg.platformsToSearch available_platforms) (fun p =>
    match assocFind reg.platformApis p with
    | none => []
    | some entries =>
        entries.filterMap (fun e =>
          if media_type ≠ "all" ∧ media_type ≠ e.2.2 then none
          else if PyFloat.le reg.similarityThreshold
              (calculate_bm25_score reg.k1 reg.b q e.1) then
            some (p, e.2.1, e.2.2)
          else none))

/-- Model of `KeywordRegistry.get_all_keywords` (set iteration order
modelled as insertion order). -/
def KeywordRegistry.get_all_keywords (reg : KeywordRegistry) : List String :=
  reg.allKeywords

/-- Model of `KeywordRegistry.get_all_platforms` (dict key order). -/
def KeywordRegistry.get_all_platforms (reg : KeywordRegistry) : List String :=
  reg.platformApis.map Prod.fst

/-- Model of `KeywordRegistry.has_keywords`. -/
def KeywordRegistry.has_keywords (reg : KeywordRegistry) (platform : String) : Bool :=
  match assocFind reg.platformApis platform with
  | some l => decide (0 < l.length)
  | none => false

example : tokenize "!!!" = [] := by decide
example : tokenize "abc" = ["abc", "ab"] := by decide
example : (KeywordRegistry.init.register "p" "!!!" "a" "image").find_matching_apis
    "!!!" none "all" = [] := by decide
example : (KeywordRegistry.init.register "p" "黑丝系列视频" "hssp" "video").find_matching_apis
    "黑丝系列视频" none "all" = [("p", "hssp", "video")] := by decide

/-! ## Helper lemmas about the string primitives and association lists -/

theorem Char.toNat_ofNat_of_small {n : Nat} (h : n < 0xD800) : (Char.ofNat n).toNat = n := by
  rw [Char.ofNat, dif_pos (Or.inl h)]
  rfl

theorem charLower_idem (c : Char) : charLower (charLower c) = charLower c := by
  unfold charLower
  by_cases h : 0x41 ≤ c.toNat ∧ c.toNat ≤ 0x5A
  · rw [if_pos h]
    have hv : (Char.ofNat (c.toNat + 0x20)).toNat = c.toNat + 0x20 :=
      Char.toNat_ofNat_of_small (by omega)
    rw [if_neg (by omega)]
  · rw [if_neg h, if_neg h]

theorem pyLower_idem (s : String) : pyLower (pyLower s) = pyLower s := by
  unfold pyLower
  show String.mk ((s.data.map charLower).map charLower) = String.mk (s.data.map charLower)
  congr 1
  rw [List.map_map]
  exact List.map_congr_left (fun a _ => charLower_idem a)

theorem pyLower_eq_empty {s : String} (h : pyLower s = "") : s = "" := by
  unfold pyLower at h
  have hd : (s.data.map charLower) = ([] : List Char) := congrArg String.data h
  rcases s with ⟨l⟩
  cases l with
  | nil => rfl
  | cons a t => simp at hd

theorem tokenize_pyLower (s : String) : tokenize (pyLower s) = tokenize s := by
  unfold tokenize
  rw [pyLower_idem]

theorem mem_concatMap {α β : Type} {b : β} {l : List α} {f : α → List β}
    (a : α) (ha : a ∈ l) (hb : b ∈ f a) : b ∈ concatMap l f := by
  induction l with
  | nil => cases ha
  | cons x xs ih =>
      rcases List.mem_cons.mp ha with h | h
      · subst h
        exact List.mem_append.mpr (Or.inl hb)
      · exact List.mem_append.mpr (Or.inr (ih h))

theorem assocFind_append_single {α : Type} (l : List (String × α)) (p q : String) (v : α) :
    assocFind (l ++ [(p, v)]) q =
      match assocFind l q with
      | some w => some w
      | none => if p = q then some v else none := by
  induction l with
  | nil => simp [assocFind]
  | cons x xs ih =>
      rcases x with ⟨k, w⟩
      by_cases h : k = q
      · simp [assocFind, h]
      · simp only [List.cons_append, assocFind, if_neg h]
        exact ih

theorem assocFind_assocUpdate_self {α : Type} (l : List (String × α)) (p : String)
    (f : α → α) (v : α) (h : assocFind l p = some v) :
    assocFind (assocUpdate l p f) p = some (f v) := by
  induction l with
  | nil => simp [assocFind] at h
  | cons x xs ih =>
      rcases x with ⟨k, w⟩
      by_cases hk : k = p
      · subst hk
        simp [assocFind] at h
        subst h
        simp [assocUpdate, assocFind]
      · simp only [assocFind, if_neg hk] at h
        simp only [assocUpdate, if_neg hk, assocFind, if_neg hk]
        exact ih h

theorem assocFind_assocUpdate_other {α : Type} (l : List (String × α)) (p q : String)
    (f : α → α) (h : p ≠ q) :
    assocFind (assocUpdate l p f) q = assocFind l q := by
  induction l with
  | nil => simp [assocUpdate, assocFind]
  | cons x xs ih =>
      rcases x with ⟨k, w⟩
      by_cases hk : k = p
      · subst hk
        simp only [assocUpdate, if_pos rfl, assocFind, if_neg h]
      · simp only [assocUpdate, if_neg hk, assocFind]
        by_cases hq : k = q
        · rw [if_pos hq, if_pos hq]
        · rw [if_neg hq, if_neg hq]
          exact ih

theorem tokenize_empty : tokenize "" = [] := by decide

/-- An exact (case-insensitive) hit of a tokenizable keyword scores the fixed
maximum 10.0: the final override branch of `_calculate_bm25_score`. -/
theorem calculate_bm25_score_exact (k1 b : PyFloat) (K : String) (h : tokenize K ≠ []) :
    calculate_bm25_score k1 b (pyLower K) K = PyFloat.ofInt 10 := by
  unfold calculate_bm25_score
  rw [tokenize_pyLower]
  rw [if_neg (by simp [h])]
  simp [pyLower_idem]

/-! ## Claim C1 (exact-match priority) -/

/-- C1 counterexample: the claim fails as stated.  (a) A registered keyword
that yields no tokens (here `"!!!"`: no CJK / latin / digit runs) makes
`_calculate_bm25_score` return 0.0 from its early empty-tokens exit before
the exact-match override is reached, so the exact query `"!!!"` scores
0.0 < 0.3 and the registered triple is not returned, already at the default
threshold.  (b) The exact-match score is the fixed constant 10.0, so a
configured threshold above 10 (here 20) excludes even exact matches of a
perfectly tokenizable keyword. -/
theorem c1_counterexample :
    ((KeywordRegistry.init.register "p" "!!!" "a" "image").find_matching_apis
        "!!!" none "all" = [] ∧
      assocFind (KeywordRegistry.init.register "p" "!!!" "a" "image").platformApis "p" =
        some [("!!!", "a", "image")]) ∧
    ((({ KeywordRegistry.init with
          similarityThreshold := ⟨20, 1⟩ }).register "p" "abc" "a" "image").find_matching_apis
        "abc" none "all" = [] ∧
      assocFind (({ KeywordRegistry.init with
          similarityThreshold := ⟨20, 1⟩ }).register "p" "abc" "a" "image").platformApis "p" =
        some [("abc", "a", "image")]) := by
  constructor
  · constructor
    · decide
    · decide
  · constructor
    · decide
    · decide

/-- C1 (amended): for a registered entry `(K, A, M)` of platform `P` whose
(trimmed) keyword produces at least one token, and a similarity threshold
not exceeding the exact-match score 10.0, `find_matching_apis(K, avail,
filter)` with `P` among the searched platforms and `filter` equal to `M`
or `"all"` includes the triple `(P, A, M)`: the exact-match override makes
the score exactly 10.0, the maximum the scorer produces. -/
theorem c1_exact_match_included
    (reg : KeywordRegistry) (P K A M : String)
    (entries : List (String × String × String))
    (hP : assocFind reg.platformApis P = some entries)
    (hE : (K, A, M) ∈ entries)
    (hTrim : pyTrim K = K)
    (hTok : tokenize K ≠ [])
    (hθ : PyFloat.le reg.similarityThreshold (PyFloat.ofInt 10) = true)
    (avail : Option (List String))
    (hPmem : P ∈ reg.platformsToSearch avail)
    (filter : String) (hM : filter = M ∨ filter = "all") :
    (P, A, M) ∈ reg.find_matching_apis K avail filter := by
  have hq : pyLower (pyTrim K) = pyLower K := by rw [hTrim]
  have hne : pyLower K ≠ "" := by
    intro he
    apply hTok
    rw [pyLower_eq_empty he]
    exact tokenize_empty
  unfold KeywordRegistry.find_matching_apis
  simp only [hq]
  rw [if_neg hne]
  refine mem_concatMap P hPmem ?_
  rw [hP]
  refine List.mem_filterMap.mpr ⟨(K, A, M), hE, ?_⟩
  have hcond : ¬(filter ≠ "all" ∧ filter ≠ (K, A, M).2.2) := by
    rcases hM with h | h
    · exact fun hc => hc.2 h
    · exact fun hc => hc.1 h
  rw [if_neg hcond]
  rw [calculate_bm25_score_exact reg.k1 reg.b K hTok]
  rw [if_pos hθ]

/-- C1 witness: the amended theorem applied to the end-to-end example
keyword of the spec, registered for platform `"p"`. -/
theorem c1_witness :
    ("p", "hssp", "video") ∈
      (KeywordRegistry.init.register "p" "黑丝系列视频" "hssp" "video").find_matching_apis
        "黑丝系列视频" (some ["p"]) "video" :=
  c1_exact_match_included _ "p" "黑丝系列视频" "hssp" "video"
    [("黑丝系列视频", "hssp", "video")]
    (by decide) (by decide) (by decide) (by decide) (by decide)
    (some ["p"]) (by decide) "video" (Or.inl rfl)

/-! ## Claim C9 (register trims; empty keyword) -/

/-- C9 counterexample: registering a whitespace-only keyword on a fresh
registry is not a complete no-op: the platform key is created first, so
the set of registered platforms reported by `get_all_platforms` changes
from `[]` to `["p"]`. -/
theorem c9_counterexample :
    (KeywordRegistry.init.register "p" " " "a" "image").get_all_platforms = ["p"] ∧
    KeywordRegistry.init.get_all_platforms = [] := by
  constructor
  · decide
  · decide

/-- C9 (amended): `register` stores the whitespace-trimmed keyword.  With an
empty or whitespace-only keyword it appends no entry and leaves the keyword
set, every platform's entry list and `has_keywords` unchanged - but it still
ensures the platform key exists, so a previously unregistered platform newly
appears (with an empty entry list) in `get_all_platforms`.  With a non-empty
trimmed keyword, exactly the triple `(trim k, apiId, mediaType)` is appended
to the platform's list and the trimmed keyword joins the keyword set
(de-duplicated). -/
theorem c9_register_trim_behavior (reg : KeywordRegistry) (p k a m : String) :
    (pyTrim k = "" →
      (reg.register p k a m).allKeywords = reg.allKeywords ∧
      (∀ q, (assocFind (reg.register p k a m).platformApis q).getD [] =
        (assocFind reg.platformApis q).getD []) ∧
      (∀ q, (reg.register p k a m).has_keywords q = reg.has_keywords q) ∧
      (reg.register p k a m).get_all_platforms =
        (match assocFind reg.platformApis p with
          | some _ => reg.get_all_platforms
          | none => reg.get_all_platforms ++ [p])) ∧
    (pyTrim k ≠ "" →
      assocFind (reg.register p k a m).platformApis p =
        some ((assocFind reg.platformApis p).getD [] ++ [(pyTrim k, a, m)]) ∧
      (∀ q, q ≠ p → assocFind (reg.register p k a m).platformApis q =
        assocFind reg.platformApis q) ∧
      (reg.register p k a m).allKeywords =
        (if pyTrim k ∈ reg.allKeywords then reg.allKeywords
          else reg.allKeywords ++ [pyTrim k])) := by
  constructor
  · intro h
    unfold KeywordRegistry.register
    rw [if_pos h]
    rcases hfind : assocFind reg.platformApis p with _ | l
    · refine ⟨rfl, ?_, ?_, ?_⟩
      · intro q
        show (assocFind (reg.platformApis ++ [(p, [])]) q).getD [] = _
        rw [assocFind_append_single]
        rcases hq : assocFind reg.platformApis q with _ | w
        · by_cases hpq : p = q
          · simp [hpq]
          · simp [hpq]
        · simp
      · intro q
        unfold KeywordRegistry.has_keywords
        show (match assocFind (reg.platformApis ++ [(p, [])]) q with
          | some l => decide (0 < l.length)
          | none => false) = _
        rw [assocFind_append_single]
        rcases hq : assocFind reg.platformApis q with _ | w
        · by_cases hpq : p = q
          · simp [hpq]
          · simp [hpq]
        · simp
      · unfold KeywordRegistry.get_all_platforms
        simp
    · exact ⟨rfl, fun q => rfl, fun q => rfl, by unfold KeywordRegistry.get_all_platforms; simp⟩
  · intro h
    unfold KeywordRegistry.register
    rw [if_neg h]
    rcases hfind : assocFind reg.platformApis p with _ | l
    · have hbase : assocFind (reg.platformApis ++ [(p, [])]) p = some [] := by
        rw [assocFind_append_single, hfind]
        simp
      refine ⟨?_, ?_, rfl⟩
      · show assocFind (assocUpdate (reg.platformApis ++ [(p, [])]) p _) p = _
        rw [assocFind_assocUpdate_self _ _ _ _ hbase]
        rfl
      · intro q hq
        show assocFind (assocUpdate (reg.platformApis ++ [(p, [])]) p _) q = _
        rw [assocFind_assocUpdate_other _ _ _ _ (Ne.symm hq)]
        rw [assocFind_append_single]
        rcases hqq : assocFind reg.platformApis q with _ | w
        · simp [Ne.symm hq]
        · simp
    · refine ⟨?_, ?_, rfl⟩
      · show assocFind (assocUpdate reg.platformApis p _) p = _
        rw [assocFind_assocUpdate_self _ _ _ _ hfind]
        rfl
      · intro q hq
        show assocFind (assocUpdate reg.platformApis p _) q = _
        exact assocFind_assocUpdate_other _ _ _ _ (Ne.symm hq)

/-- C9 witness: the amended theorem at an ideographic-space (U+3000)
padded keyword on a concrete registry - the stored entry is trimmed - and
at a keyword consisting only of an ideographic space - no entry is
appended and the keyword set is unchanged. -/
theorem c9_witness :
    ((assocFind ((KeywordRegistry.init.register "q" "k" "a" "image").register
        "q" "　black　" "b" "video").platformApis "q") =
      some [("k", "a", "image"), ("black", "b", "video")]) ∧
    (((KeywordRegistry.init.register "q" "k" "a" "image").register "q" "　" "b"
      "video").allKeywords = ["k"]) := by
  constructor
  · have h := (c9_register_trim_behavior (KeywordRegistry.init.register "q" "k" "a" "image")
      "q" "　black　" "b" "video").2 (by decide)
    rw [h.1]
    decide
  · have h := (c9_register_trim_behavior (KeywordRegistry.init.register "q" "k" "a" "image")
      "q" "　" "b" "video").1 (by decide)
    rw [h.1]
    decide

/-! ## Permission configuration (`config_manager.py`)

The persisted JSON document has top-level keys `global`, `groups`,
`platforms`.  `global` and each group entry are observed only through
`get("disabled_platforms", [])` / `get("disabled_apis", [])`, so they are
modelled as a record of those two lists (a missing group behaves exactly
like the record with two empty lists, so `groups` is a total function).
The per-platform entries are opaque credential blobs passed through to the
platform adapters; only the key set is observable to the permission logic,
so `platforms` is modelled as the list of configured platform names.
`_save_config` / `reload_config` round-trip the same document and are
modelled as the identity. -/

structure GroupConfig where
  disabled_platforms : List String
  disabled_apis : List String
deriving DecidableEq

structure ConfigManager where
  globalConfig : GroupConfig
  groups : String → GroupConfig
  platforms : List String

/-- Python truthiness of an `Optional[str]` (`None` and `""` are falsy). -/
def truthyOpt : Option String → Bool
  | some s => decide (s ≠ "")
  | none => false

/-- Model of `ConfigManager.get_group_config` (missing group ↦ `{}`). -/
def ConfigManager.get_group_config (cfg : ConfigManager) (group_id : String) : GroupConfig :=
  cfg.groups group_id

/-- Model of `ConfigManager.is_platform_enabled`: global disable, then
group disable (only when `group_id` is truthy), then configured-platform
check. -/
def ConfigManager.is_platform_enabled (cfg : ConfigManager) (group_id : Option String)
    (platform : String) : Bool :=
  if platform ∈ cfg.globalConfig.disabled_platforms then false
  else if truthyOpt group_id
      && decide (platform ∈ (cfg.groups (group_id.getD "")).disabled_platforms) then false
  else if platform ∉ cfg.platforms then false
  else true

/-- Model of `ConfigManager.is_api_enabled`. -/
def ConfigManager.is_api_enabled (cfg : ConfigManager) (group_id : Option String)
    (platform api_id : String) : Bool :=
  if ¬ cfg.is_platform_enabled group_id platform then false
  else if (platform ++ ":" ++ api_id) ∈ cfg.globalConfig.disabled_apis then false
  else if truthyOpt group_id
      && decide ((platform ++ ":" ++ api_id) ∈ (cfg.groups (group_id.getD "")).disabled_apis) then
    false
  else true

/-- Model of `ConfigManager.update_group_config`: replace the supplied
sub-fields of that group (creating the group entry if missing), then
persist and reload - a round trip that reinstates the same in-memory
document, modelled as the identity. -/
def ConfigManager.update_group_config (cfg : ConfigManager) (group_id : String)
    (disabled_platforms disabled_apis : Option (List String)) : ConfigManager :=
  { cfg with
    groups := fun g =>
      if g = group_id then
        { disabled_platforms := disabled_platforms.getD (cfg.groups group_id).disabled_platforms
          disabled_apis := disabled_apis.getD (cfg.groups group_id).disabled_apis }
      else cfg.groups g }

/-- Model of `ConfigManager.get_available_platforms`. -/
def ConfigManager.get_available_platforms (cfg : ConfigManager) (group_id : Option String) :
    List String :=
  cfg.platforms.filter (fun p => cfg.is_platform_enabled group_id p)

/-! ## Failure tracker (`failure_tracker.py`) -/

/-- State of `FailureTracker` (holding its `ConfigManager` reference):
threshold, failure counters (a dict with `get(key, 0)` access; deleting a
key is observationally setting it to 0), and the shared config. -/
structure FailureTracker where
  failure_threshold : Nat
  failure_count : String → Nat
  config_manager : ConfigManager

/-- Model of `FailureTracker._get_failure_key`. -/
def failureKey (platform api_name : String) (group_id : Option String) : String :=
  if truthyOpt group_id then platform ++ ":" ++ api_name ++ ":" ++ group_id.getD ""
  else platform ++ ":" ++ api_name ++ ":global"

/-- Model of `FailureTracker._auto_disable`: no-op for a falsy scope;
for `api_name == "search"` append the platform to the scope's
disabled-platforms list when absent; otherwise append `"platform:api"`
to the scope's disabled-APIs list when absent. -/
def FailureTracker.auto_disable (ft : FailureTracker) (platform api_name : String)
    (group_id : Option String) : ConfigManager :=
  if ¬ truthyOpt group_id then ft.config_manager
  else
    let gid := group_id.getD ""
    if api_name = "search" then
      let dps := (ft.config_manager.groups gid).disabled_platforms
      if platform ∈ dps then ft.config_manager
      else ft.config_manager.update_group_config gid (some (dps ++ [platform])) none
    else
      let das := (ft.config_manager.groups gid).disabled_apis
      if (platform ++ ":" ++ api_name) ∈ das then ft.config_manager
      else ft.config_manager.update_group_config gid none
        (some (das ++ [platform ++ ":" ++ api_name]))

/-- Model of `FailureTracker.record_failure`: increment the counter and,
when the new value reaches the threshold, run `_auto_disable`. -/
def FailureTracker.record_failure (ft : FailureTracker) (platform api_name : String)
    (group_id : Option String) : FailureTracker :=
  let key := failureKey platform api_name group_id
  let newCount := ft.failure_count key + 1
  let ft1 : FailureTracker :=
    { ft with failure_count := fun k => if k = key then newCount else ft.failure_count k }
  if ft.failure_threshold ≤ newCount then
    { ft1 with config_manager := ft.auto_disable platform api_name group_id }
  else ft1

/-- Model of `FailureTracker.reset_failure`: delete the key
(observationally: set its count to 0). -/
def FailureTracker.reset_failure (ft : FailureTracker) (platform api_name : String)
    (group_id : Option String) : FailureTracker :=
  { ft with
    failure_count := fun k =>
      if k = failureKey platform api_name group_id then 0 else ft.failure_count k }

/-- Model of `FailureTracker.get_failure_count`. -/
def FailureTracker.get_failure_count (ft : FailureTracker) (platform api_name : String)
    (group_id : Option String) : Nat :=
  ft.failure_count (failureKey platform api_name group_id)

/-! ## Basic lemmas about the tracker and config operations -/

theorem update_group_config_groups_self (cfg : ConfigManager) (gid : String)
    (dps das : Option (List String)) :
    (cfg.update_group_config gid dps das).groups gid =
      { disabled_platforms := dps.getD (cfg.groups gid).disabled_platforms
        disabled_apis := das.getD (cfg.groups gid).disabled_apis } := by
  unfold ConfigManager.update_group_config
  simp

theorem update_group_config_groups_other (cfg : ConfigManager) (gid g : String)
    (dps das : Option (List String)) (h : g ≠ gid) :
    (cfg.update_group_config gid dps das).groups g = cfg.groups g := by
  unfold ConfigManager.update_group_config
  simp [h]

theorem update_group_config_global (cfg : ConfigManager) (gid : String)
    (dps das : Option (List String)) :
    (cfg.update_group_config gid dps das).globalConfig = cfg.globalConfig := rfl

theorem update_group_config_platforms (cfg : ConfigManager) (gid : String)
    (dps das : Option (List String)) :
    (cfg.update_group_config gid dps das).platforms = cfg.platforms := rfl

theorem record_failure_threshold (ft : FailureTracker) (p a : String) (g : Option String) :
    (ft.record_failure p a g).failure_threshold = ft.failure_threshold := by
  unfold FailureTracker.record_failure
  dsimp only
  split <;> rfl

theorem record_failure_count_self (ft : FailureTracker) (p a : String) (g : Option String) :
    (ft.record_failure p a g).get_failure_count p a g = ft.get_failure_count p a g + 1 := by
  unfold FailureTracker.record_failure FailureTracker.get_failure_count
  dsimp only
  split <;> simp

theorem record_failure_config_of_lt (ft : FailureTracker) (p a : String) (g : Option String)
    (h : ft.get_failure_count p a g + 1 < ft.failure_threshold) :
    (ft.record_failure p a g).config_manager = ft.config_manager := by
  unfold FailureTracker.record_failure
  dsimp only
  rw [if_neg (by exact Nat.not_le_of_lt h)]

theorem record_failure_config_of_le (ft : FailureTracker) (p a : String) (g : Option String)
    (h : ft.failure_threshold ≤ ft.get_failure_count p a g + 1) :
    (ft.record_failure p a g).config_manager = ft.auto_disable p a g := by
  unfold FailureTracker.record_failure
  dsimp only
  rw [if_pos (show ft.failure_threshold ≤ ft.failure_count (failureKey p a g) + 1 from h)]

theorem reset_failure_count_self (ft : FailureTracker) (p a : String) (g : Option String) :
    (ft.reset_failure p a g).get_failure_count p a g = 0 := by
  unfold FailureTracker.reset_failure FailureTracker.get_failure_count
  simp

theorem reset_failure_config (ft : FailureTracker) (p a : String) (g : Option String) :
    (ft.reset_failure p a g).config_manager = ft.config_manager := rfl

theorem reset_failure_threshold (ft : FailureTracker) (p a : String) (g : Option String) :
    (ft.reset_failure p a g).failure_threshold = ft.failure_threshold := rfl

theorem auto_disable_global_scope (ft : FailureTracker) (p a : String) :
    ft.auto_disable p a none = ft.config_manager := by
  unfold FailureTracker.auto_disable
  simp [truthyOpt]

theorem string_ext {a b : String} (h : a.data = b.data) : a = b := by
  cases a
  cases b
  simp only at h
  rw [h]

theorem string_append_right_ne (p x y : String) (h : x ≠ y) : p ++ x ≠ p ++ y := by
  intro he
  apply h
  apply string_ext
  have hd : p.data ++ x.data = p.data ++ y.data := by
    have h1 := congrArg String.data he
    simpa [String.data_append] using h1
  exact List.append_cancel_left hd

theorem record_failure_config_cases (ft : FailureTracker) (p a : String) (g : Option String) :
    (ft.record_failure p a g).config_manager = ft.config_manager ∨
    (ft.record_failure p a g).config_manager = ft.auto_disable p a g := by
  unfold FailureTracker.record_failure
  dsimp only
  split
  · right
    rfl
  · left
    rfl

theorem auto_disable_search_mem (ft : FailureTracker) (p scope : String) (hs : scope ≠ "") :
    p ∈ ((ft.auto_disable p "search" (some scope)).groups scope).disabled_platforms := by
  unfold FailureTracker.auto_disable
  rw [if_neg (by simp [truthyOpt, hs])]
  dsimp only
  rw [if_pos rfl]
  by_cases hmem : p ∈ (ft.config_manager.groups (Option.getD (some scope) "")).disabled_platforms
  · rw [if_pos hmem]
    simpa using hmem
  · rw [if_neg hmem]
    show p ∈ ((ft.config_manager.update_group_config scope _ _).groups scope).disabled_platforms
    rw [update_group_config_groups_self]
    simp

theorem auto_disable_api_mem (ft : FailureTracker) (p a scope : String) (hs : scope ≠ "")
    (ha : a ≠ "search") :
    (p ++ ":" ++ a) ∈ ((ft.auto_disable p a (some scope)).groups scope).disabled_apis := by
  unfold FailureTracker.auto_disable
  rw [if_neg (by simp [truthyOpt, hs])]
  dsimp only
  rw [if_neg ha]
  by_cases hmem : (p ++ ":" ++ a) ∈ (ft.config_manager.groups (Option.getD (some scope) "")).disabled_apis
  · rw [if_pos hmem]
    simpa using hmem
  · rw [if_neg hmem]
    show (p ++ ":" ++ a) ∈ ((ft.config_manager.update_group_config scope _ _).groups scope).disabled_apis
    rw [update_group_config_groups_self]
    simp

theorem auto_disable_mem_noop (ft : FailureTracker) (p a scope : String) (hs : scope ≠ "")
    (hmem : (a = "search" ∧ p ∈ (ft.config_manager.groups scope).disabled_platforms) ∨
      (a ≠ "search" ∧ (p ++ ":" ++ a) ∈ (ft.config_manager.groups scope).disabled_apis)) :
    ft.auto_disable p a (some scope) = ft.config_manager := by
  unfold FailureTracker.auto_disable
  rw [if_neg (by simp [truthyOpt, hs])]
  dsimp only
  rcases hmem with ⟨ha, hm⟩ | ⟨ha, hm⟩
  · rw [if_pos ha, if_pos (by simpa using hm)]
  · rw [if_neg ha, if_pos (by simpa using hm)]

/-- Case analysis of `_auto_disable`: either the config is untouched, or
exactly one list of the scope's group entry gains exactly one new element. -/
theorem auto_disable_config_cases (ft : FailureTracker) (p a : String) (g : Option String) :
    ft.auto_disable p a g = ft.config_manager ∨
    (∃ scope, g = some scope ∧ scope ≠ "" ∧
      ((a = "search" ∧ p ∉ (ft.config_manager.groups scope).disabled_platforms ∧
        ft.auto_disable p a g = ft.config_manager.update_group_config scope
          (some ((ft.config_manager.groups scope).disabled_platforms ++ [p])) none) ∨
       (a ≠ "search" ∧ (p ++ ":" ++ a) ∉ (ft.config_manager.groups scope).disabled_apis ∧
        ft.auto_disable p a g = ft.config_manager.update_group_config scope none
          (some ((ft.config_manager.groups scope).disabled_apis ++ [p ++ ":" ++ a]))))) := by
  rcases g with _ | scope
  · left
    exact auto_disable_global_scope ft p a
  · by_cases hs : scope = ""
    · left
      unfold FailureTracker.auto_disable
      rw [if_pos (by simp [truthyOpt, hs])]
    · by_cases ha : a = "search"
      · by_cases hmem : p ∈ (ft.config_manager.groups scope).disabled_platforms
        · left
          exact auto_disable_mem_noop ft p a scope hs (Or.inl ⟨ha, hmem⟩)
        · right
          refine ⟨scope, rfl, hs, Or.inl ⟨ha, hmem, ?_⟩⟩
          unfold FailureTracker.auto_disable
          rw [if_neg (by simp [truthyOpt, hs])]
          dsimp only
          rw [if_pos ha, if_neg (by simpa using hmem)]
          subst ha
          rfl
      · by_cases hmem : (p ++ ":" ++ a) ∈ (ft.config_manager.groups scope).disabled_apis
        · left
          exact auto_disable_mem_noop ft p a scope hs (Or.inr ⟨ha, hmem⟩)
        · right
          refine ⟨scope, rfl, hs, Or.inr ⟨ha, hmem, ?_⟩⟩
          unfold FailureTracker.auto_disable
          rw [if_neg (by simp [truthyOpt, hs])]
          dsimp only
          rw [if_neg ha, if_neg (by simpa using hmem)]
          rfl

/-- The frame of one `record_failure` on one group entry: unchanged, or
one platform appended (search case), or one API key appended. -/
theorem record_failure_groups_cases (ft : FailureTracker) (p a : String) (g : Option String)
    (scope : String) :
    ((ft.record_failure p a g).config_manager.groups scope = ft.config_manager.groups scope) ∨
    ((ft.record_failure p a g).config_manager.groups scope =
        { disabled_platforms := (ft.config_manager.groups scope).disabled_platforms ++ [p]
          disabled_apis := (ft.config_manager.groups scope).disabled_apis } ∧
      p ∉ (ft.config_manager.groups scope).disabled_platforms ∧ a = "search") ∨
    ((ft.record_failure p a g).config_manager.groups scope =
        { disabled_platforms := (ft.config_manager.groups scope).disabled_platforms
          disabled_apis := (ft.config_manager.groups scope).disabled_apis ++ [p ++ ":" ++ a] } ∧
      (p ++ ":" ++ a) ∉ (ft.config_manager.groups scope).disabled_apis ∧ a ≠ "search") := by
  rcases record_failure_config_cases ft p a g with hc | hc
  · left
    rw [hc]
  · rcases auto_disable_config_cases ft p a g with hd | ⟨s0, hg, hs0, hcase⟩
    · left
      rw [hc, hd]
    · rcases hcase with ⟨ha, hmem, heq⟩ | ⟨ha, hmem, heq⟩
      · by_cases hss : scope = s0
        · subst hss
          right
          left
          refine ⟨?_, hmem, ha⟩
          rw [hc, heq, update_group_config_groups_self]
          rfl
        · left
          rw [hc, heq, update_group_config_groups_other _ _ _ _ _ hss]
      · by_cases hss : scope = s0
        · subst hss
          right
          right
          refine ⟨?_, hmem, ha⟩
          rw [hc, heq, update_group_config_groups_self]
          rfl
        · left
          rw [hc, heq, update_group_config_groups_other _ _ _ _ _ hss]

theorem record_failure_global_platforms (ft : FailureTracker) (p a : String) (g : Option String) :
    (ft.record_failure p a g).config_manager.globalConfig = ft.config_manager.globalConfig ∧
    (ft.record_failure p a g).config_manager.platforms = ft.config_manager.platforms := by
  rcases record_failure_config_cases ft p a g with hc | hc
  · rw [hc]
    exact ⟨rfl, rfl⟩
  · rcases auto_disable_config_cases ft p a g with hd | ⟨s0, _, _, hcase⟩
    · rw [hc, hd]
      exact ⟨rfl, rfl⟩
    · rcases hcase with ⟨_, _, heq⟩ | ⟨_, _, heq⟩ <;>
        rw [hc, heq] <;> exact ⟨rfl, rfl⟩

theorem nodup_append_single {x : String} {l : List String} (h : l.Nodup) (hx : x ∉ l) :
    (l ++ [x]).Nodup := by
  simp [List.nodup_append, h, hx]

/-! ## Claim C3 (cascading permission precedence) -/

/-- The cascade described by the spec, written as one boolean formula:
enabled iff not globally disabled, and not disabled by the (truthy) scope,
and configured.  (Following the code's convention, a scope counts as
"given" when it is present and non-empty.) -/
def is_platform_enabled_spec (cfg : ConfigManager) (group_id : Option String)
    (platform : String) : Bool :=
  decide (platform ∉ cfg.globalConfig.disabled_platforms) &&
  (!(truthyOpt group_id
      && decide (platform ∈ (cfg.groups (group_id.getD "")).disabled_platforms))) &&
  decide (platform ∈ cfg.platforms)

/-- C3: `is_platform_enabled` is exactly the cascade global disable >
scope disable > platform-not-configured: false when the platform is
globally disabled (whatever the scope lists say), false when the truthy
scope lists it (while any other scope not listing it is unaffected),
false when the platform is not configured, and true otherwise. -/
theorem c3_cascading_permissions (cfg : ConfigManager) (group_id : Option String)
    (platform : String) :
    cfg.is_platform_enabled group_id platform =
      is_platform_enabled_spec cfg group_id platform := by
  unfold ConfigManager.is_platform_enabled is_platform_enabled_spec
  rcases htr : truthyOpt group_id <;>
    by_cases h1 : platform ∈ cfg.globalConfig.disabled_platforms <;>
    by_cases h2 : platform ∈ (cfg.groups (group_id.getD "")).disabled_platforms <;>
    by_cases h3 : platform ∈ cfg.platforms <;>
    simp [htr, h1, h2, h3]

/-! ## Claim C2 (circuit breaker threshold and reset) -/

/-- C2: with threshold 3, a truthy scope, a zero counter and the platform
not yet scope-disabled, three consecutive `record_failure(p, "search",
scope)` calls put `p` into the scope's disabled-platforms list; whereas
record, record, `reset_failure` (which clears the counter entirely),
record leaves the counter at 1 and the configuration - in particular the
scope's disabled-platforms list - exactly as it started. -/
theorem c2_circuit_breaker (ft : FailureTracker) (p scope : String)
    (hth : ft.failure_threshold = 3) (hs : scope ≠ "")
    (h0 : ft.get_failure_count p "search" (some scope) = 0)
    (hnd : p ∉ (ft.config_manager.groups scope).disabled_platforms) :
    (p ∈ (((((ft.record_failure p "search" (some scope)).record_failure p "search"
        (some scope)).record_failure p "search" (some scope)).config_manager.groups
        scope).disabled_platforms)) ∧
    ((((((ft.record_failure p "search" (some scope)).record_failure p "search"
        (some scope)).reset_failure p "search" (some scope)).record_failure p "search"
        (some scope)).get_failure_count p "search" (some scope) = 1) ∧
      ((((ft.record_failure p "search" (some scope)).record_failure p "search"
        (some scope)).reset_failure p "search" (some scope)).record_failure p "search"
        (some scope)).config_manager = ft.config_manager ∧
      p ∉ (((((ft.record_failure p "search" (some scope)).record_failure p "search"
        (some scope)).reset_failure p "search" (some scope)).record_failure p "search"
        (some scope)).config_manager.groups scope).disabled_platforms) := by
  have hc1 : (ft.record_failure p "search" (some scope)).get_failure_count p "search"
      (some scope) = 1 := by
    rw [record_failure_count_self, h0]
  have hth1 : (ft.record_failure p "search" (some scope)).failure_threshold = 3 := by
    rw [record_failure_threshold, hth]
  have hcfg1 : (ft.record_failure p "search" (some scope)).config_manager =
      ft.config_manager := by
    apply record_failure_config_of_lt
    rw [h0, hth]
    omega
  have hc2 : ((ft.record_failure p "search" (some scope)).record_failure p "search"
      (some scope)).get_failure_count p "search" (some scope) = 2 := by
    rw [record_failure_count_self, hc1]
  have hth2 : ((ft.record_failure p "search" (some scope)).record_failure p "search"
      (some scope)).failure_threshold = 3 := by
    rw [record_failure_threshold, hth1]
  have hcfg2 : ((ft.record_failure p "search" (some scope)).record_failure p "search"
      (some scope)).config_manager = ft.config_manager := by
    rw [record_failure_config_of_lt _ _ _ _ (by rw [hc1, hth1]; omega), hcfg1]
  refine ⟨?_, ?_, ?_, ?_⟩
  · rw [record_failure_config_of_le _ _ _ _ (by rw [hc2, hth2])]
    exact auto_disable_search_mem _ p scope hs
  · rw [record_failure_count_self, reset_failure_count_self]
  · rw [record_failure_config_of_lt _ _ _ _
      (by rw [reset_failure_count_self, reset_failure_threshold, hth2]; omega)]
    rw [reset_failure_config, hcfg2]
  · rw [record_failure_config_of_lt _ _ _ _
      (by rw [reset_failure_count_self, reset_failure_threshold, hth2]; omega)]
    rw [reset_failure_config, hcfg2]
    exact hnd

/-- Shared concrete permission document for the witnesses below. -/
def cfgExample : ConfigManager :=
  { globalConfig := ⟨[], []⟩, groups := fun _ => ⟨[], []⟩, platforms := ["ak317"] }

/-- Shared concrete failure tracker (threshold 3, no failures yet). -/
def ftExample : FailureTracker :=
  { failure_threshold := 3, failure_count := fun _ => 0, config_manager := cfgExample }

/-- C2 witness: the circuit-breaker theorem at the concrete tracker
`ftExample`, platform `"ak317"`, scope `"g1"`. -/
theorem c2_witness :
    ("g1" : String) ≠ "" ∧
    (("ak317" ∈ ((((ftExample.record_failure "ak317" "search" (some "g1")).record_failure
        "ak317" "search" (some "g1")).record_failure "ak317" "search"
        (some "g1")).config_manager.groups "g1").disabled_platforms) ∧
      (((((ftExample.record_failure "ak317" "search" (some "g1")).record_failure "ak317"
        "search" (some "g1")).reset_failure "ak317" "search" (some "g1")).record_failure
        "ak317" "search" (some "g1")).get_failure_count "ak317" "search" (some "g1") = 1) ∧
      ((((ftExample.record_failure "ak317" "search" (some "g1")).record_failure "ak317"
        "search" (some "g1")).reset_failure "ak317" "search" (some "g1")).record_failure
        "ak317" "search" (some "g1")).config_manager = ftExample.config_manager ∧
      "ak317" ∉ (((((ftExample.record_failure "ak317" "search" (some "g1")).record_failure
        "ak317" "search" (some "g1")).reset_failure "ak317" "search"
        (some "g1")).record_failure "ak317" "search"
        (some "g1")).config_manager.groups "g1").disabled_platforms) :=
  ⟨by decide,
    c2_circuit_breaker ftExample "ak317" "g1" rfl (by decide) rfl (by decide)⟩

/-! ## Claim C7 (global-scope failures never mutate the permission document) -/

/-- C7: any number of `record_failure` calls with an absent scope
(`group_id = None`) leave the permission document untouched while the
global counter for that key grows by exactly the number of calls. -/
theorem c7_global_failures_never_disable (ft : FailureTracker) (p a : String) (n : Nat) :
    ((fun s : FailureTracker => s.record_failure p a none)^[n] ft).config_manager =
      ft.config_manager ∧
    ((fun s : FailureTracker => s.record_failure p a none)^[n] ft).get_failure_count p a none =
      ft.get_failure_count p a none + n := by
  induction n with
  | zero => exact ⟨rfl, rfl⟩
  | succ k ih =>
      rw [Function.iterate_succ_apply']
      constructor
      · rcases record_failure_config_cases
          ((fun s : FailureTracker => s.record_failure p a none)^[k] ft) p a none with h | h
        · rw [h, ih.1]
        · rw [h, auto_disable_global_scope, ih.1]
      · rw [record_failure_count_self, ih.2]
        omega

/-! ## Claim C6 (non-search API disable scope) -/

/-- Frame relation between two permission documents: everything is
unchanged except that the given scope's disabled-APIs list may have
gained the single key `akey` (only if it was absent). -/
def ApiDisableEffect (cfg cfg2 : ConfigManager) (scope akey : String) : Prop :=
  cfg2.globalConfig = cfg.globalConfig ∧
  cfg2.platforms = cfg.platforms ∧
  (∀ g, (cfg2.groups g).disabled_platforms = (cfg.groups g).disabled_platforms) ∧
  (∀ g, g ≠ scope → cfg2.groups g = cfg.groups g) ∧
  ((cfg2.groups scope).disabled_apis = (cfg.groups scope).disabled_apis ∨
    ((cfg2.groups scope).disabled_apis = (cfg.groups scope).disabled_apis ++ [akey] ∧
      akey ∉ (cfg.groups scope).disabled_apis))

theorem apiDisableEffect_refl (cfg : ConfigManager) (scope akey : String) :
    ApiDisableEffect cfg cfg scope akey :=
  ⟨rfl, rfl, fun _ => rfl, fun _ _ => rfl, Or.inl rfl⟩

theorem apiDisableEffect_trans {cfg cfg1 cfg2 : ConfigManager} {scope akey : String}
    (h1 : ApiDisableEffect cfg cfg1 scope akey) (h2 : ApiDisableEffect cfg1 cfg2 scope akey) :
    ApiDisableEffect cfg cfg2 scope akey := by
  refine ⟨h2.1.trans h1.1, h2.2.1.trans h1.2.1,
    fun g => (h2.2.2.1 g).trans (h1.2.2.1 g),
    fun g hg => (h2.2.2.2.1 g hg).trans (h1.2.2.2.1 g hg), ?_⟩
  rcases h2.2.2.2.2 with ha | ⟨ha, hn⟩
  · rcases h1.2.2.2.2 with hb | ⟨hb, hn1⟩
    · exact Or.inl (ha.trans hb)
    · exact Or.inr ⟨ha.trans hb, hn1⟩
  · rcases h1.2.2.2.2 with hb | ⟨hb, hn1⟩
    · exact Or.inr ⟨by rw [ha, hb], by rwa [hb] at hn⟩
    · exact absurd (hb ▸ hn) (by simp)

/-- One `record_failure` for a non-`"search"` API with a truthy scope
realizes the `ApiDisableEffect` frame. -/
theorem record_failure_api_effect (ft : FailureTracker) (p a scope : String)
    (ha : a ≠ "search") :
    ApiDisableEffect ft.config_manager
      (ft.record_failure p a (some scope)).config_manager scope (p ++ ":" ++ a) := by
  refine ⟨(record_failure_global_platforms ft p a (some scope)).1,
    (record_failure_global_platforms ft p a (some scope)).2, ?_, ?_, ?_⟩
  · intro g
    rcases record_failure_groups_cases ft p a (some scope) g with h | ⟨h, _, ha2⟩ | ⟨h, _, _⟩
    · rw [h]
    · exact absurd ha2 ha
    · rw [h]
  · intro g hg
    rcases record_failure_config_cases ft p a (some scope) with hc | hc
    · rw [hc]
    · rcases auto_disable_config_cases ft p a (some scope) with hd | ⟨s0, hg0, _, hcase⟩
      · rw [hc, hd]
      · have hs0 : s0 = scope := by
          injection hg0 with h0
          exact h0.symm
        subst hs0
        rcases hcase with ⟨_, _, heq⟩ | ⟨_, _, heq⟩ <;>
          rw [hc, heq, update_group_config_groups_other _ _ _ _ _ hg]
  · rcases record_failure_groups_cases ft p a (some scope) scope with h | ⟨h, _, ha2⟩ |
      ⟨h, hm, _⟩
    · rw [h]
      exact Or.inl rfl
    · exact absurd ha2 ha
    · rw [h]
      exact Or.inr ⟨rfl, hm⟩

theorem apiDisableEffect_platform_enabled {cfg cfg2 : ConfigManager} {scope akey : String}
    (h : ApiDisableEffect cfg cfg2 scope akey) (gid : Option String) (q : String) :
    cfg2.is_platform_enabled gid q = cfg.is_platform_enabled gid q := by
  unfold ConfigManager.is_platform_enabled
  rw [h.1, h.2.1, h.2.2.1 (gid.getD "")]

theorem apiDisableEffect_api_enabled {cfg cfg2 : ConfigManager} {scope akey : String}
    (h : ApiDisableEffect cfg cfg2 scope akey) (gid : Option String) (q a2 : String)
    (hne : (q ++ ":" ++ a2) ≠ akey) :
    cfg2.is_api_enabled gid q a2 = cfg.is_api_enabled gid q a2 := by
  unfold ConfigManager.is_api_enabled
  rw [apiDisableEffect_platform_enabled h, h.1]
  by_cases hg : gid.getD "" = scope
  · rw [hg]
    rcases h.2.2.2.2 with hd | ⟨hd, _⟩
    · rw [hd]
    · rw [hd]
      have hmem : decide ((q ++ ":" ++ a2) ∈ (cfg.groups scope).disabled_apis ++ [akey]) =
          decide ((q ++ ":" ++ a2) ∈ (cfg.groups scope).disabled_apis) := by
        simp [List.mem_append, hne]
      rw [hmem]
  · rw [h.2.2.2.1 _ hg]

/-- C6: with threshold 3, three `record_failure(P, A, scope)` calls with a
non-`"search"` API id and a truthy scope put exactly the key `"P:A"` into that scope's
disabled-APIs list (appended once, only if absent) and change nothing
else: global configuration, configured platforms, every group's
disabled-platforms list and all other groups are untouched, platform
enablement is everywhere unchanged, and every other API of `P` keeps its
enablement in that scope. -/
theorem c6_nonsearch_api_disable (ft : FailureTracker) (P A scope : String)
    (hth : ft.failure_threshold = 3) (hs : scope ≠ "") (hA : A ≠ "search") :
    ((P ++ ":" ++ A) ∈ (((((ft.record_failure P A (some scope)).record_failure P A
        (some scope)).record_failure P A (some scope)).config_manager.groups
        scope).disabled_apis)) ∧
    ((((ft.record_failure P A (some scope)).record_failure P A
        (some scope)).record_failure P A (some scope)).config_manager.globalConfig =
      ft.config_manager.globalConfig) ∧
    ((((ft.record_failure P A (some scope)).record_failure P A
        (some scope)).record_failure P A (some scope)).config_manager.platforms =
      ft.config_manager.platforms) ∧
    (∀ g, (((((ft.record_failure P A (some scope)).record_failure P A
        (some scope)).record_failure P A (some scope)).config_manager.groups
        g).disabled_platforms) = (ft.config_manager.groups g).disabled_platforms) ∧
    (∀ g, g ≠ scope → ((((ft.record_failure P A (some scope)).record_failure P A
        (some scope)).record_failure P A (some scope)).config_manager.groups g) =
      ft.config_manager.groups g) ∧
    ((((((ft.record_failure P A (some scope)).record_failure P A
        (some scope)).record_failure P A (some scope)).config_manager.groups
        scope).disabled_apis) = (ft.config_manager.groups scope).disabled_apis ++
          [P ++ ":" ++ A] ∨
      ((((((ft.record_failure P A (some scope)).record_failure P A
        (some scope)).record_failure P A (some scope)).config_manager.groups
        scope).disabled_apis) = (ft.config_manager.groups scope).disabled_apis ∧
        (P ++ ":" ++ A) ∈ (ft.config_manager.groups scope).disabled_apis)) ∧
    (∀ gid q, ((((ft.record_failure P A (some scope)).record_failure P A
        (some scope)).record_failure P A (some scope)).config_manager.is_platform_enabled
        gid q) = ft.config_manager.is_platform_enabled gid q) ∧
    (∀ a2, a2 ≠ A → ((((ft.record_failure P A (some scope)).record_failure P A
        (some scope)).record_failure P A (some scope)).config_manager.is_api_enabled
        (some scope) P a2) = ft.config_manager.is_api_enabled (some scope) P a2) := by
  have heff : ApiDisableEffect ft.config_manager
      ((((ft.record_failure P A (some scope)).record_failure P A
        (some scope)).record_failure P A (some scope)).config_manager) scope
      (P ++ ":" ++ A) :=
    apiDisableEffect_trans (record_failure_api_effect ft P A scope hA)
      (apiDisableEffect_trans
        (record_failure_api_effect (ft.record_failure P A (some scope)) P A scope hA)
        (record_failure_api_effect
          ((ft.record_failure P A (some scope)).record_failure P A (some scope))
          P A scope hA))
  have hth2 : ((ft.record_failure P A (some scope)).record_failure P A
      (some scope)).failure_threshold = 3 := by
    rw [record_failure_threshold, record_failure_threshold, hth]
  have hcnt2 : ((ft.record_failure P A (some scope)).record_failure P A
      (some scope)).get_failure_count P A (some scope) =
      ft.get_failure_count P A (some scope) + 2 := by
    rw [record_failure_count_self, record_failure_count_self]
  have hmem : (P ++ ":" ++ A) ∈ (((((ft.record_failure P A (some scope)).record_failure P A
      (some scope)).record_failure P A (some scope)).config_manager.groups
      scope).disabled_apis) := by
    rw [record_failure_config_of_le _ _ _ _ (by rw [hth2, hcnt2]; omega)]
    exact auto_disable_api_mem _ P A scope hs hA
  refine ⟨hmem, heff.1, heff.2.1, heff.2.2.1, heff.2.2.2.1, ?_, ?_, ?_⟩
  · rcases heff.2.2.2.2 with hd | ⟨hd, hn⟩
    · right
      refine ⟨hd, ?_⟩
      rwa [hd] at hmem
    · left
      exact hd
  · intro gid q
    exact apiDisableEffect_platform_enabled heff gid q
  · intro a2 ha2
    exact apiDisableEffect_api_enabled heff (some scope) P a2
      (string_append_right_ne (P ++ ":") a2 A ha2)

/-- C6 witness: three failures of API `"xyz"` of platform `"ak317"` in
scope `"g1"` on the concrete tracker. -/
theorem c6_witness :
    ("xyz" : String) ≠ "search" ∧
    (("ak317" ++ ":" ++ "xyz") ∈ (((((ftExample.record_failure "ak317" "xyz"
        (some "g1")).record_failure "ak317" "xyz" (some "g1")).record_failure "ak317" "xyz"
        (some "g1")).config_manager.groups "g1").disabled_apis)) ∧
    (∀ g, (((((ftExample.record_failure "ak317" "xyz" (some "g1")).record_failure "ak317"
        "xyz" (some "g1")).record_failure "ak317" "xyz"
        (some "g1")).config_manager.groups g).disabled_platforms) =
      (ftExample.config_manager.groups g).disabled_platforms) :=
  ⟨by decide,
    (c6_nonsearch_api_disable ftExample "ak317" "xyz" "g1" rfl (by decide) (by decide)).1,
    (c6_nonsearch_api_disable ftExample "ak317" "xyz" "g1" rfl (by decide)
      (by decide)).2.2.2.1⟩

/-! ## Claim C10 (increment by one; idempotent re-trigger) -/

/-- C10: every `record_failure` increments the counter of its key by
exactly one (auto-disable never resets it); when the key is scoped and
the relevant entry is already disabled the permission document is left
completely unchanged (idempotence - the lists never gain a duplicate,
and duplicate-freeness is preserved); and whenever the incremented count
is at or above the threshold with a truthy scope, the auto-disable is
(re-)triggered, leaving the relevant entry present in the scope's list. -/
theorem c10_record_failure_invariants (ft : FailureTracker) (p a : String)
    (g : Option String) :
    ((ft.record_failure p a g).get_failure_count p a g = ft.get_failure_count p a g + 1) ∧
    (∀ scope,
      (((ft.config_manager.groups scope).disabled_platforms.Nodup) →
        ((ft.record_failure p a g).config_manager.groups scope).disabled_platforms.Nodup) ∧
      (((ft.config_manager.groups scope).disabled_apis.Nodup) →
        ((ft.record_failure p a g).config_manager.groups scope).disabled_apis.Nodup)) ∧
    (∀ scope, g = some scope → scope ≠ "" →
      ((a = "search" ∧ p ∈ (ft.config_manager.groups scope).disabled_platforms) ∨
        (a ≠ "search" ∧ (p ++ ":" ++ a) ∈ (ft.config_manager.groups scope).disabled_apis)) →
      (ft.record_failure p a g).config_manager = ft.config_manager) ∧
    (∀ scope, g = some scope → scope ≠ "" →
      ft.failure_threshold ≤ ft.get_failure_count p a g + 1 →
      (a = "search" →
        p ∈ ((ft.record_failure p a g).config_manager.groups scope).disabled_platforms) ∧
      (a ≠ "search" →
        (p ++ ":" ++ a) ∈
          ((ft.record_failure p a g).config_manager.groups scope).disabled_apis)) := by
  refine ⟨record_failure_count_self ft p a g, ?_, ?_, ?_⟩
  · intro scope
    rcases record_failure_groups_cases ft p a g scope with h | ⟨h, hm, _⟩ | ⟨h, hm, _⟩
    · rw [h]
      exact ⟨id, id⟩
    · rw [h]
      exact ⟨fun hnd => nodup_append_single hnd hm, id⟩
    · rw [h]
      exact ⟨id, fun hnd => nodup_append_single hnd hm⟩
  · intro scope hg hs hmem
    subst hg
    rcases record_failure_config_cases ft p a (some scope) with hc | hc
    · exact hc
    · rw [hc]
      exact auto_disable_mem_noop ft p a scope hs hmem
  · intro scope hg hs hth
    subst hg
    rw [record_failure_config_of_le _ _ _ _ hth]
    constructor
    · intro ha
      subst ha
      exact auto_disable_search_mem ft p scope hs
    · intro ha
      exact auto_disable_api_mem ft p a scope hs ha

/-- Concrete tracker two failures away from a clean slate (counter at 2). -/
def ftExample2 : FailureTracker :=
  { failure_threshold := 3, failure_count := fun _ => 2, config_manager := cfgExample }

/-- C10 witness: the invariants at a concrete scoped key whose next
failure reaches the threshold. -/
theorem c10_witness :
    ((ftExample2.record_failure "ak317" "search" (some "g1")).get_failure_count "ak317"
      "search" (some "g1") =
      ftExample2.get_failure_count "ak317" "search" (some "g1") + 1) ∧
    ("ak317" ∈ ((ftExample2.record_failure "ak317" "search"
      (some "g1")).config_manager.groups "g1").disabled_platforms) :=
  ⟨(c10_record_failure_invariants ftExample2 "ak317" "search" (some "g1")).1,
    ((c10_record_failure_invariants ftExample2 "ak317" "search" (some "g1")).2.2.2 "g1"
      rfl (by decide) (by decide)).1 rfl⟩

/-! ## Python values (payload dicts of the cache and the resolver)

The payloads this plugin caches and returns are small JSON-style dicts
(`{"url": ..., "type": ...}`, error dicts with an optional keyword list
and count).  They are modelled as ordered association lists over a value
type covering the occurring shapes. -/

inductive PyVal where
  | s : String → PyVal
  | n : Nat → PyVal
  | list : List String → PyVal
deriving DecidableEq

/-! ## MD5 (model of `hashlib.md5(...).hexdigest()`)

Used by `CacheManager._sanitize_filename` for over-long names.  Standard
MD5 over the UTF-8 bytes, all 32-bit arithmetic done in `Nat` modulo
`2 ^ 32`. -/

/-- UTF-8 encoding of one scalar value. -/
def utf8EncodeChar (c : Char) : List Nat :=
  let n := c.toNat
  if n < 0x80 then [n]
  else if n < 0x800 then [0xC0 + n / 64, 0x80 + n % 64]
  else if n < 0x10000 then [0xE0 + n / 4096, 0x80 + (n / 64) % 64, 0x80 + n % 64]
  else [0xF0 + n / 262144, 0x80 + (n / 4096) % 64, 0x80 + (n / 64) % 64, 0x80 + n % 64]

def utf8Bytes (s : String) : List Nat := concatMap s.data utf8EncodeChar

/-- The 64 MD5 sine-derived constants (RFC 1321el table T). -/
def md5K : List Nat :=
  [0xd76aa478, 0xe8c7b756, 0x242070db, 0xc1bdceee,
   0xf57c0faf, 0x4787c62a, 0xa8304613, 0xfd469501,
   0x698098d8, 0x8b44f7af, 0xffff5bb1, 0x895cd7be,
   0x6b901122, 0xfd987193, 0xa679438e, 0x49b40821,
   0xf61e2562, 0xc040b340, 0x265e5a51, 0xe9b6c7aa,
   0xd62f105d, 0x02441453, 0xd8a1e681, 0xe7d3fbc8,
   0x21e1cde6, 0xc33707d6, 0xf4d50d87, 0x455a14ed,
   0xa9e3e905, 0xfcefa3f8, 0x676f02d9, 0x8d2a4c8a,
   0xfffa3942, 0x8771f681, 0x6d9d6122, 0xfde5380c,
   0xa4beea44, 0x4bdecfa9, 0xf6bb4b60, 0xbebfbc70,
   0x289b7ec6, 0xeaa127fa, 0xd4ef3085, 0x04881d05,
   0xd9d4d039, 0xe6db99e5, 0x1fa27cf8, 0xc4ac5665,
   0xf4292244, 0x432aff97, 0xab9423a7, 0xfc93a039,
   0x655b59c3, 0x8f0ccc92, 0xffeff47d, 0x85845dd1,
   0x6fa87e4f, 0xfe2ce6e0, 0xa3014314, 0x4e0811a1,
   0xf7537e82, 0xbd3af235, 0x2ad7d2bb, 0xeb86d391]

/-- The per-round left-rotation amounts. -/
def md5S : List Nat :=
  [7, 12, 17, 22, 7, 12, 17, 22, 7, 12, 17, 22, 7, 12, 17, 22,
   5, 9, 14, 20, 5, 9, 14, 20, 5, 9, 14, 20, 5, 9, 14, 20,
   4, 11, 16, 23, 4, 11, 16, 23, 4, 11, 16, 23, 4, 11, 16, 23,
   6, 10, 15, 21, 6, 10, 15, 21, 6, 10, 15, 21, 6, 10, 15, 21]

def bnot32 (x : Nat) : Nat := x ^^^ 0xFFFFFFFF

def rotl32 (x n : Nat) : Nat := (x * 2 ^ n) % 4294967296 + x / 2 ^ (32 - n)

/-- MD5 padding: `0x80`, zeros to 56 mod 64, bit length as 8 LE bytes. -/
def md5Pad (msg : List Nat) : List Nat :=
  let len := msg.length
  let padLen := (64 + 56 - (len + 1) % 64) % 64
  msg ++ [0x80] ++ List.replicate padLen 0 ++
    ((List.range 8).map (fun i => (len * 8) / 2 ^ (8 * i) % 256))

/-- Little-endian 32-bit word `g` of a 64-byte chunk. -/
def md5Word (chunk : List Nat) (g : Nat) : Nat :=
  chunk.getD (4 * g) 0 + 256 * chunk.getD (4 * g + 1) 0 +
    65536 * chunk.getD (4 * g + 2) 0 + 16777216 * chunk.getD (4 * g + 3) 0

/-- One 64-byte chunk of the MD5 compression function. -/
def md5Chunk (st : Nat × Nat × Nat × Nat) (chunk : List Nat) : Nat × Nat × Nat × Nat :=
  let r := (List.range 64).foldl
    (fun (abcd : Nat × Nat × Nat × Nat) i =>
      let a := abcd.1
      let b := abcd.2.1
      let c := abcd.2.2.1
      let d := abcd.2.2.2
      let fg : Nat × Nat :=
        if i < 16 then ((b &&& c) ||| (bnot32 b &&& d), i)
        else if i < 32 then ((d &&& b) ||| (bnot32 d &&& c), (5 * i + 1) % 16)
        else if i < 48 then (b ^^^ c ^^^ d, (3 * i + 5) % 16)
        else (c ^^^ (b ||| bnot32 d), (7 * i) % 16)
      let f2 := (fg.1 + a + md5K.getD i 0 + md5Word chunk fg.2) % 4294967296
      (d, (b + rotl32 f2 (md5S.getD i 0)) % 4294967296, b, c))
    st
  ((st.1 + r.1) % 4294967296, (st.2.1 + r.2.1) % 4294967296,
    (st.2.2.1 + r.2.2.1) % 4294967296, (st.2.2.2 + r.2.2.2) % 4294967296)

/-- Run the compression over all chunks of a padded message. -/
def md5Digest (bytes : List Nat) : Nat × Nat × Nat × Nat :=
  let padded := md5Pad bytes
  (List.range (padded.length / 64)).foldl
    (fun st i => md5Chunk st ((padded.drop (64 * i)).take 64))
    (0x67452301, 0xefcdab89, 0x98badcfe, 0x10325476)

def hexDigitChar (n : Nat) : Char :=
  if n < 10 then Char.ofNat (48 + n) else Char.ofNat (87 + n)

def byteHex (b : Nat) : List Char := [hexDigitChar (b / 16), hexDigitChar (b % 16)]

/-- Little-endian bytes of one 32-bit state word. -/
def wordBytes (w : Nat) : List Nat := [w % 256, w / 256 % 256, w / 65536 % 256, w / 16777216 % 256]

/-- Model of `hashlib.md5(s.encode('utf-8')).hexdigest()`. -/
def md5Hexdigest (s : String) : String :=
  let d := md5Digest (utf8Bytes s)
  ⟨concatMap (wordBytes d.1 ++ wordBytes d.2.1 ++ wordBytes d.2.2.1 ++ wordBytes d.2.2.2)
    byteHex⟩

/-! ## Result cache (`cache_manager.py`) -/

/-- One cache entry: `{"data": ..., "expires_at": ..., "created_at": ...}`
(the persisted form additionally stores the original query string, used
only by the startup disk scan, which is outside the modelled operations). -/
structure CacheEntry where
  data : List (String × PyVal)
  expires_at : PyFloat
  created_at : PyFloat
deriving DecidableEq

/-- State of `CacheManager`: in-memory dict keyed by
`"query:media_type:platform"`, the on-disk store keyed by the actual
relative path (sanitized-query directory, `"media_type_platform"`
filename), and the default TTL. -/
structure CacheManager where
  cache : String → Option CacheEntry
  disk : String × String → Option CacheEntry
  default_ttl : PyFloat

/-- Model of `CacheManager._get_cache_key`. -/
def cacheKey (query media_type platform : String) : String :=
  query ++ ":" ++ media_type ++ ":" ++ platform

/-- Model of `CacheManager._sanitize_filename`: replace the nine illegal
characters by `_`, then collapse over-long (> 100 characters) names to
the MD5 hex digest. -/
def sanitizeFilename (text : String) : String :=
  let replaced : String :=
    ⟨text.data.map (fun c =>
      if c ∈ ['<', '>', ':', '"', '/', '\\', '|', '?', '*'] then '_' else c)⟩
  if 100 < replaced.length then md5Hexdigest replaced else replaced

/-- Model of `CacheManager._get_cache_file_path` (relative to the cache
directory). -/
def cacheFileKey (query media_type platform : String) : String × String :=
  (sanitizeFilename query, media_type ++ "_" ++ platform)

/-- Model of `CacheManager._delete_cache_file`. -/
def CacheManager.delete_cache_file (cm : CacheManager) (query media_type platform : String) :
    CacheManager :=
  { cm with
    disk := fun x => if x = cacheFileKey query media_type platform then none else cm.disk x }

/-- Model of `CacheManager.has_cache` at time `now`: memory first (expired
⇒ evict memory and file, report absent), then disk (expired ⇒ delete the
file, report absent; valid ⇒ load into memory).  Returns the flag and the
possibly mutated cache state. -/
def CacheManager.has_cache (cm : CacheManager) (now : PyFloat)
    (query media_type platform : String) : Bool × CacheManager :=
  let key := cacheKey query media_type platform
  match cm.cache key with
  | some entry =>
      if PyFloat.lt entry.expires_at now then
        (false, ({ cm with cache := fun x => if x = key then none else cm.cache x
                 }).delete_cache_file query media_type platform)
      else (true, cm)
  | none =>
      match cm.disk (cacheFileKey query media_type platform) with
      | some entry =>
          if PyFloat.lt entry.expires_at now then
            (false, cm.delete_cache_file query media_type platform)
          else (true, { cm with cache := fun x => if x = key then some entry else cm.cache x })
      | none => (false, cm)

/-- Model of `CacheManager.get_cache`: `has_cache` (with its evictions),
then the entry's `"data"` field. -/
def CacheManager.get_cache (cm : CacheManager) (now : PyFloat)
    (query media_type platform : String) : Option (List (String × PyVal)) × CacheManager :=
  let r := cm.has_cache now query media_type platform
  if r.1 then
    match r.2.cache (cacheKey query media_type platform) with
    | some entry => (some entry.data, r.2)
    | none => (none, r.2)
  else (none, r.2)

/-- Model of `CacheManager.set_cache`: `ttl = ttl or default_ttl` (Python
truthiness: `None` and `0` both fall back to the default), then write
`{data, expires_at := now + ttl, created_at := now}` to memory and disk.
The two `time.time()` calls of the source are modelled as the same
instant. -/
def CacheManager.set_cache (cm : CacheManager) (now : PyFloat)
    (query media_type platform : String) (data : List (String × PyVal))
    (ttl : Option PyFloat) : CacheManager :=
  let t := match ttl with
    | some v => if v.num = 0 then cm.default_ttl else v
    | none => cm.default_ttl
  let entry : CacheEntry := { data := data, expires_at := now.add t, created_at := now }
  { cm with
    cache := fun x => if x = cacheKey query media_type platform then some entry else cm.cache x
    disk := fun x => if x = cacheFileKey query media_type platform then some entry else cm.disk x }

/-! ## Claim C5 (cache round-trip and expiry) -/

theorem lt_add_sixty_self_false (now : PyFloat) :
    PyFloat.lt (now.add (PyFloat.ofInt 60)) now = false := by
  unfold PyFloat.lt PyFloat.add PyFloat.ofInt
  apply decide_eq_false
  intro h
  dsimp only at h
  nlinarith [mul_self_nonneg now.den]

/-- C5: `set_cache(q, m, p, D, ttl=60)` followed by an immediate
`get_cache` returns `D` unchanged; the entry is valid at time `t` exactly
when `t` has not passed `now + 60` (validity is `now ≤ expires_at`); and a
read past expiry returns absence, evicts the entry from memory and from
the persisted file, and leaves a subsequent `has_cache` false. -/
theorem c5_cache_roundtrip (cm : CacheManager) (q m p : String)
    (D : List (String × PyVal)) (now : PyFloat) :
    ((cm.set_cache now q m p D (some (PyFloat.ofInt 60))).get_cache now q m p).1 = some D ∧
    (∀ t, ((cm.set_cache now q m p D (some (PyFloat.ofInt 60))).has_cache t q m p).1 =
      !(PyFloat.lt (now.add (PyFloat.ofInt 60)) t)) ∧
    (∀ t, PyFloat.lt (now.add (PyFloat.ofInt 60)) t = true →
      (((cm.set_cache now q m p D (some (PyFloat.ofInt 60))).get_cache t q m p).1 = none ∧
        ((cm.set_cache now q m p D (some (PyFloat.ofInt 60))).get_cache t q m p).2.cache
          (cacheKey q m p) = none ∧
        ((cm.set_cache now q m p D (some (PyFloat.ofInt 60))).get_cache t q m p).2.disk
          (cacheFileKey q m p) = none ∧
        ((((cm.set_cache now q m p D (some (PyFloat.ofInt 60))).get_cache t q m p).2.has_cache
          t q m p).1 = false))) := by
  have hset : cm.set_cache now q m p D (some (PyFloat.ofInt 60)) =
      { cm with
        cache := fun x => if x = cacheKey q m p then
          some ⟨D, now.add (PyFloat.ofInt 60), now⟩ else cm.cache x
        disk := fun x => if x = cacheFileKey q m p then
          some ⟨D, now.add (PyFloat.ofInt 60), now⟩ else cm.disk x } := by
    unfold CacheManager.set_cache
    simp [PyFloat.ofInt]
  refine ⟨?_, ?_, ?_⟩
  · rw [hset]
    unfold CacheManager.get_cache CacheManager.has_cache
    simp [cacheKey, lt_add_sixty_self_false now]
  · intro t
    rw [hset]
    unfold CacheManager.has_cache
    rcases hb : PyFloat.lt (now.add (PyFloat.ofInt 60)) t with _ | _
    · simp [hb]
    · simp [hb]
  · intro t hlt
    rw [hset]
    unfold CacheManager.get_cache CacheManager.has_cache CacheManager.delete_cache_file
    simp [hlt]

/-- Concrete empty cache for the witnesses. -/
def cacheExample : CacheManager :=
  { cache := fun _ => none, disk := fun _ => none, default_ttl := PyFloat.ofInt 3600 }

/-- C5 witness: the round-trip theorem at a concrete key and payload, with
the expiry read 61 seconds later. -/
theorem c5_witness :
    ((cacheExample.set_cache (PyFloat.ofInt 0) "黑丝" "video" "ak317"
        [("url", PyVal.s "https://x/y.mp4"), ("type", PyVal.s "video")]
        (some (PyFloat.ofInt 60))).get_cache (PyFloat.ofInt 0) "黑丝" "video" "ak317").1 =
      some [("url", PyVal.s "https://x/y.mp4"), ("type", PyVal.s "video")] ∧
    ((cacheExample.set_cache (PyFloat.ofInt 0) "黑丝" "video" "ak317"
        [("url", PyVal.s "https://x/y.mp4"), ("type", PyVal.s "video")]
        (some (PyFloat.ofInt 60))).get_cache (PyFloat.ofInt 61) "黑丝" "video" "ak317").1 =
      none ∧
    ((((cacheExample.set_cache (PyFloat.ofInt 0) "黑丝" "video" "ak317"
        [("url", PyVal.s "https://x/y.mp4"), ("type", PyVal.s "video")]
        (some (PyFloat.ofInt 60))).get_cache (PyFloat.ofInt 61) "黑丝" "video"
        "ak317").2.has_cache (PyFloat.ofInt 61) "黑丝" "video" "ak317").1 = false) :=
  ⟨(c5_cache_roundtrip cacheExample "黑丝" "video" "ak317"
      [("url", PyVal.s "https://x/y.mp4"), ("type", PyVal.s "video")] (PyFloat.ofInt 0)).1,
    ((c5_cache_roundtrip cacheExample "黑丝" "video" "ak317"
      [("url", PyVal.s "https://x/y.mp4"), ("type", PyVal.s "video")] (PyFloat.ofInt 0)).2.2
      (PyFloat.ofInt 61) (by decide)).1,
    ((c5_cache_roundtrip cacheExample "黑丝" "video" "ak317"
      [("url", PyVal.s "https://x/y.mp4"), ("type", PyVal.s "video")] (PyFloat.ofInt 0)).2.2
      (PyFloat.ofInt 61) (by decide)).2.2.2⟩

/-! ## Resolver (`main.py`, `MediaApiTool._get_media_internal`)

The platform adapters are external collaborators: the environment `env`
maps a platform name to its instance (`get_platform`), whose supported
media types and the outcome of this request's `search_media` call
(success results or the raised exception's message) are given as data.
`random.choice(enabled_apis)` is modelled by an arbitrary index `pick`
(reduced modulo the candidate count).  The per-platform opaque config and
`limit=1` argument are absorbed into the adapter outcome. -/

/-- An adapter search hit (`MediaResource`): only `url` and `media_type`
are consumed by the resolver. -/
structure SearchResult where
  url : String
  media_type : String

/-- One platform adapter as seen by this request. -/
structure PlatformInst where
  supported : List String
  search : String → String → String → Except String (List SearchResult)

/-- The mutable state the resolver touches: the failure tracker (which
holds the shared `ConfigManager`), the result cache and the keyword
registry. -/
structure SysState where
  ft : FailureTracker
  cm : CacheManager
  reg : KeywordRegistry

/-- Step 1 of the resolver: platforms enabled for the scope. -/
def availOf (st : SysState) (group_id : Option String) : List String :=
  st.ft.config_manager.get_available_platforms group_id

/-- Step 2: keep platforms whose adapter exists and supports the media
type (or anything, when `"all"` is requested). -/
def typeFilteredOf (env : String → Option PlatformInst) (st : SysState)
    (group_id : Option String) (media_type : String) : List String :=
  (availOf st group_id).filter (fun pn =>
    match env pn with
    | none => false
    | some inst => decide (media_type = "all") || decide (media_type ∈ inst.supported))

/-- Step 3: the keyword matches among the type-filtered platforms. -/
def matchingOf (env : String → Option PlatformInst) (st : SysState)
    (group_id : Option String) (query media_type : String) :
    List (String × String × String) :=
  st.reg.find_matching_apis query (some (typeFilteredOf env st group_id media_type))
    media_type

/-- Step 4: drop individually disabled APIs. -/
def enabledOf (env : String → Option PlatformInst) (st : SysState)
    (group_id : Option String) (query media_type : String) :
    List (String × String × String) :=
  (matchingOf env st group_id query media_type).filter
    (fun t => st.ft.config_manager.is_api_enabled group_id t.1 t.2.1)

/-- The no-match error payload of `_get_media_internal` (step 3 failure):
with more than 20 registered keywords, the full keyword list and its
count are returned as structured fields next to a bare error message;
with 1-20 keywords, the message itself lists them (the `"等N个关键词"`
suffix branch sits inside the ≤ 20 path and is therefore dead); with no
keywords, a fixed message. -/
def no_match_result (reg : KeywordRegistry) : List (String × PyVal) :=
  let all_keywords := reg.get_all_keywords
  if all_keywords ≠ [] then
    if 20 < all_keywords.length then
      [("error", PyVal.s "未匹配到关键词"), ("keywords", PyVal.list all_keywords),
        ("keywords_count", PyVal.n all_keywords.length)]
    else
      let keywords_str := joinSep "、" (all_keywords.take 20)
      let keywords_str2 :=
        if 20 < all_keywords.length then
          keywords_str ++ "等" ++ toString all_keywords.length ++ "个关键词"
        else keywords_str
      [("error", PyVal.s ("未匹配到关键词，可用关键词：" ++ keywords_str2))]
  else [("error", PyVal.s "未匹配到关键词，且没有已注册的关键词")]

/-- The `except` handler around the adapter call (`main.py` steps 12-13):
record the failure for `(platform, api_id, scope)`, then try the result
cache for `(query, media_type, platform)`; a truthy (non-empty) cached
payload is returned as the result, otherwise the adapter's message is
wrapped into a terminal error. -/
def handle_search_failure (st : SysState) (query media_type platform api_id : String)
    (group_id : Option String) (now : PyFloat) (e : String) :
    SysState × List (String × PyVal) :=
  let ft2 := st.ft.record_failure platform api_id group_id
  let gc := st.cm.get_cache now query media_type platform
  let st2 : SysState := { st with ft := ft2, cm := gc.2 }
  match gc.1 with
  | some d =>
      if d = [] then (st2, [("error", PyVal.s ("API调用失败: " ++ e))]) else (st2, d)
  | none => (st2, [("error", PyVal.s ("API调用失败: " ++ e))])

/-- Model of `MediaApiTool._get_media_internal` for one request: the
pipeline of §4.5 with its terminal errors, the success path (cache write
+ failure reset) and the failure path (`handle_search_failure`).  An
empty adapter result list raises `"未找到结果"` into the same handler. -/
def get_media_internal (env : String → Option PlatformInst) (st : SysState)
    (query media_type : String) (group_id : Option String) (pick : Nat) (now : PyFloat) :
    SysState × List (String × PyVal) :=
  if availOf st group_id = [] then (st, [("error", PyVal.s "没有可用的平台")])
  else if typeFilteredOf env st group_id media_type = [] then
    (st, [("error", PyVal.s ("没有支持" ++ media_type ++ "类型的平台"))])
  else if matchingOf env st group_id query media_type = [] then
    (st, no_match_result st.reg)
  else if enabledOf env st group_id query media_type = [] then
    (st, [("error", PyVal.s "所有匹配的API都已被禁用")])
  else
    let enabled := enabledOf env st group_id query media_type
    let t := enabled.getD (pick % enabled.length) ("", "", "")
    match env t.1 with
    | none => (st, [("error", PyVal.s ("平台 " ++ t.1 ++ " 不存在"))])
    | some inst =>
        match inst.search query media_type t.2.1 with
        | Except.ok (r :: _) =>
            let result := [("url", PyVal.s r.url), ("type", PyVal.s r.media_type)]
            let cm2 := st.cm.set_cache now query media_type t.1 result none
            let ft2 := st.ft.reset_failure t.1 t.2.1 group_id
            ({ st with cm := cm2, ft := ft2 }, result)
        | Except.ok [] =>
            handle_search_failure st query media_type t.1 t.2.1 group_id now "未找到结果"
        | Except.error e =>
            handle_search_failure st query media_type t.1 t.2.1 group_id now e

/-! ## Claim C4 (failure records, then cache fallback, else terminal error) -/

theorem handle_search_failure_ft (st : SysState) (query media_type platform api_id : String)
    (group_id : Option String) (now : PyFloat) (e : String) :
    (handle_search_failure st query media_type platform api_id group_id now e).1.ft =
      st.ft.record_failure platform api_id group_id := by
  unfold handle_search_failure
  dsimp only
  rcases hgc : (st.cm.get_cache now query media_type platform).1 with _ | d
  · rfl
  · dsimp only
    split <;> rfl

/-- C4 counterexample: a previously cached but *empty* payload for the
key is unexpired, yet the resolver returns the terminal error instead of
the cached payload - the fallback tests Python truthiness
(`if cached_result:`), not cache presence. -/
theorem c4_counterexample :
    ((SysState.mk ⟨3, fun _ => 0, ⟨⟨[], []⟩, fun _ => ⟨[], []⟩, ["p"]⟩⟩
        ⟨fun x => if x = cacheKey "abc" "all" "p" then
            some ⟨[], PyFloat.ofInt 1000, PyFloat.ofInt 0⟩ else none,
          fun _ => none, PyFloat.ofInt 3600⟩
        (KeywordRegistry.init.register "p" "abc" "a" "image")).cm.has_cache
      (PyFloat.ofInt 0) "abc" "all" "p").1 = true ∧
    (get_media_internal
        (fun pn => if pn = "p" then
          some ⟨["image"], fun _ _ _ => Except.error "boom"⟩ else none)
        (SysState.mk ⟨3, fun _ => 0, ⟨⟨[], []⟩, fun _ => ⟨[], []⟩, ["p"]⟩⟩
          ⟨fun x => if x = cacheKey "abc" "all" "p" then
              some ⟨[], PyFloat.ofInt 1000, PyFloat.ofInt 0⟩ else none,
            fun _ => none, PyFloat.ofInt 3600⟩
          (KeywordRegistry.init.register "p" "abc" "a" "image"))
        "abc" "all" none 0 (PyFloat.ofInt 0)).2 =
      [("error", PyVal.s ("API调用失败: " ++ "boom"))] := by
  constructor
  · decide
  · decide

/-- C4 (amended): when the selected adapter's search fails, the failure
is recorded first - the tracker's count for `(platform, api_id, scope)`
becomes its prior value plus one - and then the result cache is read for
`(query, media_type, platform)`: a *non-empty* unexpired cached payload
is returned in place of an error, while an absent (or empty, by Python
truthiness) cached payload yields the terminal error carrying the
adapter's message. -/
theorem c4_failure_fallback (st : SysState) (query media_type platform api_id : String)
    (group_id : Option String) (now : PyFloat) (e : String) :
    ((handle_search_failure st query media_type platform api_id group_id now
        e).1.ft.get_failure_count platform api_id group_id =
      st.ft.get_failure_count platform api_id group_id + 1) ∧
    (∀ D, (st.cm.get_cache now query media_type platform).1 = some D → D ≠ [] →
      (handle_search_failure st query media_type platform api_id group_id now e).2 = D) ∧
    ((st.cm.get_cache now query media_type platform).1 = none →
      (handle_search_failure st query media_type platform api_id group_id now e).2 =
        [("error", PyVal.s ("API调用失败: " ++ e))]) ∧
    ((st.cm.get_cache now query media_type platform).1 = some [] →
      (handle_search_failure st query media_type platform api_id group_id now e).2 =
        [("error", PyVal.s ("API调用失败: " ++ e))]) := by
  refine ⟨?_, ?_, ?_, ?_⟩
  · rw [handle_search_failure_ft]
    exact record_failure_count_self st.ft platform api_id group_id
  · intro D hD hne
    unfold handle_search_failure
    dsimp only
    rw [hD]
    dsimp only
    rw [if_neg hne]
  · intro hD
    unfold handle_search_failure
    dsimp only
    rw [hD]
  · intro hD
    unfold handle_search_failure
    dsimp only
    rw [hD]
    dsimp only
    rw [if_pos rfl]

/-- Concrete state for the C4 witness: a non-empty payload cached for
the key, counter at 0. -/
def stC4w : SysState :=
  SysState.mk ⟨3, fun _ => 0, ⟨⟨[], []⟩, fun _ => ⟨[], []⟩, ["p"]⟩⟩
    ⟨fun x => if x = cacheKey "abc" "all" "p" then
        some ⟨[("url", PyVal.s "https://x/y.mp4"), ("type", PyVal.s "video")],
          PyFloat.ofInt 1000, PyFloat.ofInt 0⟩ else none,
      fun _ => none, PyFloat.ofInt 3600⟩
    (KeywordRegistry.init.register "p" "abc" "a" "image")

/-- C4 witness: the amended theorem at the concrete state - the count
goes 0 → 1 and the cached payload is returned. -/
theorem c4_witness :
    ((handle_search_failure stC4w "abc" "all" "p" "a" none (PyFloat.ofInt 0)
        "boom").1.ft.get_failure_count "p" "a" none =
      stC4w.ft.get_failure_count "p" "a" none + 1) ∧
    (handle_search_failure stC4w "abc" "all" "p" "a" none (PyFloat.ofInt 0) "boom").2 =
      [("url", PyVal.s "https://x/y.mp4"), ("type", PyVal.s "video")] :=
  ⟨(c4_failure_fallback stC4w "abc" "all" "p" "a" none (PyFloat.ofInt 0) "boom").1,
    (c4_failure_fallback stC4w "abc" "all" "p" "a" none (PyFloat.ofInt 0) "boom").2.1
      [("url", PyVal.s "https://x/y.mp4"), ("type", PyVal.s "video")]
      (by decide) (by decide)⟩

/-! ## Claim C8 (no-match diagnostic) -/

/-- The 21 keywords used by the C8 counterexample. -/
def kw21 : List String :=
  ["k01", "k02", "k03", "k04", "k05", "k06", "k07", "k08", "k09", "k10", "k11",
   "k12", "k13", "k14", "k15", "k16", "k17", "k18", "k19", "k20", "k21"]

/-- A registry holding 21 keywords (registered for platform `"q"`, which
is not configured, so a query over the configured platform `"p"` matches
nothing while all 21 keywords are known). -/
def reg21 : KeywordRegistry :=
  kw21.foldl (fun r k => r.register "q" k "a" "image") KeywordRegistry.init

/-- System state for the C8 counterexample. -/
def stC8 : SysState :=
  SysState.mk ⟨3, fun _ => 0, ⟨⟨[], []⟩, fun _ => ⟨[], []⟩, ["p"]⟩⟩ cacheExample reg21

/-- Adapter environment for the C8 scenarios. -/
def envC8 : String → Option PlatformInst :=
  fun pn => if pn = "p" then some ⟨["image"], fun _ _ _ => Except.error "x"⟩ else none

/-- C8 counterexample: with 21 registered keywords and no match, the
error result's message carries no keyword sample at all, and the
structured `keywords` field carries the *full, uncapped* 21-element list
- there is no cap at 20 and no `"+N more"` suffix (the suffix branch in
the code is unreachable, sitting inside the ≤ 20 path). -/
theorem c8_counterexample :
    reg21.get_all_keywords.length = 21 ∧
    (get_media_internal envC8 stC8 "hello" "all" none 0 (PyFloat.ofInt 0)).2 =
      [("error", PyVal.s "未匹配到关键词"), ("keywords", PyVal.list kw21),
        ("keywords_count", PyVal.n 21)] := by
  constructor
  · decide
  · decide

/-- C8 (amended): whenever the matching engine returns no candidates (and
the pipeline got that far), the resolver returns `no_match_result`: with
no registered keywords a fixed message; with 1-20 keywords an error
message listing *all* of them (at most 20, and the `"等N个关键词"` suffix
branch is dead, so no suffix is ever emitted); with more than 20 keywords
a bare error message plus the full uncapped keyword list and its count as
structured fields - capping is left to the caller. -/
theorem c8_no_match_diagnostic (env : String → Option PlatformInst) (st : SysState)
    (query media_type : String) (group_id : Option String) (pick : Nat) (now : PyFloat)
    (h1 : availOf st group_id ≠ [])
    (h2 : typeFilteredOf env st group_id media_type ≠ [])
    (h3 : matchingOf env st group_id query media_type = []) :
    (get_media_internal env st query media_type group_id pick now).2 =
      no_match_result st.reg ∧
    (st.reg.get_all_keywords = [] →
      no_match_result st.reg =
        [("error", PyVal.s "未匹配到关键词，且没有已注册的关键词")]) ∧
    (st.reg.get_all_keywords ≠ [] → st.reg.get_all_keywords.length ≤ 20 →
      no_match_result st.reg =
        [("error", PyVal.s ("未匹配到关键词，可用关键词：" ++
          joinSep "、" st.reg.get_all_keywords))]) ∧
    (20 < st.reg.get_all_keywords.length →
      no_match_result st.reg =
        [("error", PyVal.s "未匹配到关键词"),
          ("keywords", PyVal.list st.reg.get_all_keywords),
          ("keywords_count", PyVal.n st.reg.get_all_keywords.length)]) := by
  refine ⟨?_, ?_, ?_, ?_⟩
  · unfold get_media_internal
    rw [if_neg h1, if_neg h2, if_pos h3]
  · intro h
    unfold no_match_result
    rw [if_neg (by simp [h])]
  · intro hne hle
    unfold no_match_result
    rw [if_pos (by simpa using hne)]
    rw [if_neg (by omega)]
    dsimp only
    rw [if_neg (by omega)]
    rw [List.take_of_length_le hle]
  · intro hgt
    unfold no_match_result
    rw [if_pos (by intro h; rw [h] at hgt; simp at hgt)]
    rw [if_pos hgt]

/-- C8 witness: the amended theorem at a concrete one-keyword registry
whose platform is not configured (so nothing matches): the error message
lists the single keyword. -/
theorem c8_witness :
    (get_media_internal envC8
        (SysState.mk ⟨3, fun _ => 0, ⟨⟨[], []⟩, fun _ => ⟨[], []⟩, ["p"]⟩⟩ cacheExample
          (KeywordRegistry.init.register "q" "黑丝" "a" "image"))
        "hello" "all" none 0 (PyFloat.ofInt 0)).2 =
      no_match_result (KeywordRegistry.init.register "q" "黑丝" "a" "image") ∧
    no_match_result (KeywordRegistry.init.register "q" "黑丝" "a" "image") =
      [("error", PyVal.s ("未匹配到关键词，可用关键词：" ++ joinSep "、" ["黑丝"]))] :=
  ⟨(c8_no_match_diagnostic envC8
      (SysState.mk ⟨3, fun _ => 0, ⟨⟨[], []⟩, fun _ => ⟨[], []⟩, ["p"]⟩⟩ cacheExample
        (KeywordRegistry.init.register "q" "黑丝" "a" "image"))
      "hello" "all" none 0 (PyFloat.ofInt 0)
      (by decide) (by decide) (by decide)).1,
    (c8_no_match_diagnostic envC8
      (SysState.mk ⟨3, fun _ => 0, ⟨⟨[], []⟩, fun _ => ⟨[], []⟩, ["p"]⟩⟩ cacheExample
        (KeywordRegistry.init.register "q" "黑丝" "a" "image"))
      "hello" "all" none 0 (PyFloat.ofInt 0)
      (by decide) (by decide) (by decide)).2.2.1 (by decide) (by decide)⟩
